import Mathlib

/-!
Shallow embedding of the attendance integrity and reconciliation engine of
the `onsite` repository (Node.js), together with proofs about the claims of
its specification.

Conventions of the embedding:
* JavaScript numbers are modelled as `ℚ` (exact arithmetic over the values
  the code manipulates); timestamps are milliseconds since the epoch, as
  produced by `Date.getTime()`.
* `null`/`undefined` fields are modelled as `Option`; JavaScript truthiness
  on a numeric value (`!x`, `x && y`, `x || y`) treats `null`, `undefined`
  and `0` as falsy, captured by `numTruthy` / `jsOrNum` below, and on a
  string value treats `null`, `undefined` and `""` as falsy (`strTruthy`).
* The transcendental functions used by the haversine formula
  (`Math.sin/cos/atan2/sqrt/PI`) are collected in a `JsMath` structure and
  every function of the embedding is parametric in it, so that all
  definitions stay executable; theorems quantify over the model.
* Database tables are explicit lists inside a `Db` structure; SQL queries
  of the repository layer become pure functions over those lists, and the
  service functions thread the `Db` state explicitly.
* Entity ids (UUID strings in the database) are modelled as `ℕ`; a present
  id is always truthy (UUID strings are nonempty).

The repository ships two revisions of `src/utils/geofencing.js`; the
current one (the one whose behaviour the specification describes, with the
extended PostGIS error-code handling) blocks validation when the facility
has no coordinates, and is the revision embedded here.  The stale revision
differs only in that branch.
-/

namespace Onsite

/-! ## JavaScript value helpers -/

/-- Truthiness of an optional JS number: `null`/`undefined`/`0` are falsy. -/
def numTruthy : Option ℚ → Bool
  | none => false
  | some q => q != 0

/-- Truthiness of an optional JS string: `null`/`undefined`/`""` are falsy. -/
def strTruthy : Option String → Bool
  | none => false
  | some s => s != ""

/-- JS `a || b` on an optional number with a (present) default. -/
def jsOrNum (a : Option ℚ) (b : ℚ) : ℚ :=
  if numTruthy a then a.getD b else b

/-- JS `a || b` on two optional numbers. -/
def jsOrOptNum (a b : Option ℚ) : Option ℚ :=
  if numTruthy a then a else b

/-- JS `a || b` on two optional strings. -/
def jsOrOptStr (a b : Option String) : Option String :=
  if strTruthy a then a else b

/-- JS `Math.round`: round half towards positive infinity. -/
def jsRound (q : ℚ) : ℤ := ⌊q + 1 / 2⌋

/-! ## Math model for the haversine formula

`src/utils/geofencing.js` uses `Math.sin`, `Math.cos`, `Math.atan2`,
`Math.sqrt` and `Math.PI`.  They are kept abstract so the embedding stays
executable; the geofence decision structure does not depend on their
values. -/

structure JsMath where
  sin : ℚ → ℚ
  cos : ℚ → ℚ
  atan2 : ℚ → ℚ → ℚ
  sqrt : ℚ → ℚ
  pi : ℚ

/-- A concrete (degenerate) math model, used to evaluate the embedding on
closed inputs in witnesses. -/
def mathZero : JsMath := ⟨fun _ => 0, fun _ => 0, fun _ _ => 0, fun _ => 0, 0⟩

/-- `haversineDistance` of `src/utils/geofencing.js` (lines 18-31):
great-circle distance in meters with Earth radius 6,371,000 m. -/
def haversineDistance (m : JsMath) (lat1 lon1 lat2 lon2 : ℚ) : ℚ :=
  let R : ℚ := 6371000
  let phi1 := lat1 * m.pi / 180
  let phi2 := lat2 * m.pi / 180
  let dphi := (lat2 - lat1) * m.pi / 180
  let dlam := (lon2 - lon1) * m.pi / 180
  let a := m.sin (dphi / 2) * m.sin (dphi / 2) +
           m.cos phi1 * m.cos phi2 * m.sin (dlam / 2) * m.sin (dlam / 2)
  let c := 2 * m.atan2 (m.sqrt a) (m.sqrt (1 - a))
  R * c

/-! ## Facilities and geofence validation (`src/utils/geofencing.js`) -/

/-- A row of the `facilities` table (columns used by the geofencing code).
`geofence_radius` is nullable; the queries apply `COALESCE(geofence_radius, 100)`. -/
structure Facility where
  id : ℕ
  name : String
  latitude : Option ℚ
  longitude : Option ℚ
  geofence_radius : Option ℚ
  is_active : Bool
  deriving DecidableEq

/-- Result object of `validateGeofence`.  Fields absent from a given return
object of the JS code are modelled as `none`. -/
structure GeofenceResult where
  isWithinGeofence : Bool
  distance : Option ℤ
  maxRadius : Option ℚ
  facilityName : Option String
  error : Option String
  warning : Option String
  deriving DecidableEq

/-- `SELECT ... FROM facilities WHERE id = $1 AND is_active = TRUE` (first row). -/
def findActiveFacility (facilities : List Facility) (facilityId : ℕ) : Option Facility :=
  facilities.find? fun f => f.id == facilityId && f.is_active

/-- The fallback branch of `validateGeofence` (identical code appears in the
empty-result branch and in the PostGIS-error catch branch): look the facility
up without PostGIS, block when it has no coordinates, otherwise compare the
haversine distance against the radius.  Lines 63-110 and 146-188 of
`src/utils/geofencing.js`. -/
def geofenceFallback (m : JsMath) (facilities : List Facility) (facilityId : ℕ)
    (userLat userLon : ℚ) : GeofenceResult :=
  match findActiveFacility facilities facilityId with
  | none =>
    { isWithinGeofence := false, distance := none, maxRadius := none,
      facilityName := none, error := some "Facility not found or inactive",
      warning := none }
  | some facility =>
    let radius := facility.geofence_radius.getD 100
    if !(numTruthy facility.latitude) || !(numTruthy facility.longitude) then
      { isWithinGeofence := false, distance := none, maxRadius := some radius,
        facilityName := none,
        error := some "Facility location not configured. Please contact your administrator.",
        warning := none }
    else
      let distance := haversineDistance m (facility.latitude.getD 0)
        (facility.longitude.getD 0) userLat userLon
      { isWithinGeofence := distance ≤ radius, distance := some (jsRound distance),
        maxRadius := some radius, facilityName := none, error := none, warning := none }

/-- `validateGeofence` of `src/utils/geofencing.js` (lines 43-194).
`postgis` is `some dist` when the PostGIS extension is available (its
`ST_DistanceSphere` modelled as the supplied distance function) and `none`
when the PostGIS query errors, in which case the code runs the fallback
branch.  The primary query only matches facilities whose coordinates are
both non-null (SQL `IS NOT NULL`). -/
def validateGeofence (m : JsMath) (postgis : Option (ℚ → ℚ → ℚ → ℚ → ℚ))
    (facilities : List Facility) (facilityId : ℕ) (userLat userLon : ℚ) :
    GeofenceResult :=
  match postgis with
  | some pgDist =>
    match facilities.find? (fun f => f.id == facilityId && f.is_active
        && f.latitude.isSome && f.longitude.isSome) with
    | some facility =>
      let radius := facility.geofence_radius.getD 100
      let distance := jsRound (pgDist (facility.latitude.getD 0)
        (facility.longitude.getD 0) userLat userLon)
      { isWithinGeofence := (distance : ℚ) ≤ radius, distance := some distance,
        maxRadius := some radius, facilityName := some facility.name,
        error := none, warning := none }
    | none => geofenceFallback m facilities facilityId userLat userLon
  | none => geofenceFallback m facilities facilityId userLat userLon

/-! ## GPS coordinate validation (`src/utils/validators.js`) -/

/-- Result of `validateGpsCoordinates`. -/
structure CoordValidation where
  isValid : Bool
  error : Option String
  warning : Option String
  deriving DecidableEq

/-- `validateGpsCoordinates` of `src/utils/validators.js` (lines 96-160):
presence, range and Null-Island checks.  The JS type/finiteness checks
(`typeof`, `isFinite`) cannot fail for values already modelled as rational
numbers and are omitted; the precision-warning branch is modelled by the
`precisionWarn` flag computed by the caller side of the embedding being
folded into `warning` (the claims under verification do not depend on the
decimal-places heuristic, which inspects the decimal string of the number). -/
def validateGpsCoordinates (lat lon : Option ℚ) : CoordValidation :=
  match lat, lon with
  | some la, some lo =>
    if la < -90 || la > 90 then
      { isValid := false, error := some "Latitude must be between -90 and 90 degrees",
        warning := none }
    else if lo < -180 || lo > 180 then
      { isValid := false, error := some "Longitude must be between -180 and 180 degrees",
        warning := none }
    else if |la| < 1 / 100 && |lo| < 1 / 100 then
      { isValid := false,
        error := some "Invalid GPS coordinates detected (Null Island). Please check your GPS settings.",
        warning := none }
    else
      { isValid := true, error := none, warning := none }
  | _, _ =>
    { isValid := false, error := some "GPS coordinates are required for clock-in",
      warning := none }

/-! ## Spoofing detection (`src/utils/spoofingDetection.js`) -/

/-- `MAX_SPEED_KMH = 150`. -/
def MAX_SPEED_KMH : ℚ := 150

/-- `MIN_SUSPICIOUS_ACCURACY = 1`. -/
def MIN_SUSPICIOUS_ACCURACY : ℚ := 1

/-- `MAX_ACCEPTABLE_ACCURACY = 500`. -/
def MAX_ACCEPTABLE_ACCURACY : ℚ := 500

/-- A location with timestamp as consumed by `detectImpossibleSpeed`
(timestamps in milliseconds since the epoch). -/
structure SpeedLocation where
  latitude : ℚ
  longitude : ℚ
  timestamp : ℚ
  deriving DecidableEq

/-- Result of `detectImpossibleSpeed` (the fields the callers consult). -/
structure Suspicion where
  suspicious : Bool
  reason : Option String
  deriving DecidableEq

/-- Elapsed time in hours between the two locations, as computed by
`detectImpossibleSpeed` (milliseconds divided by `1000 * 60 * 60`). -/
def timeDiffHours (lastLoc curLoc : SpeedLocation) : ℚ :=
  (curLoc.timestamp - lastLoc.timestamp) / (1000 * 60 * 60)

/-- Implied travel speed in km/h between the two locations, as computed by
`detectImpossibleSpeed` (haversine meters → km, divided by elapsed hours). -/
def impliedSpeedKmh (m : JsMath) (lastLoc curLoc : SpeedLocation) : ℚ :=
  haversineDistance m lastLoc.latitude lastLoc.longitude
    curLoc.latitude curLoc.longitude / 1000 / timeDiffHours lastLoc curLoc

/-- `detectImpossibleSpeed` of `src/utils/spoofingDetection.js` (lines 24-83).
Note the JS truthiness guards: a missing location, or a latitude/longitude
equal to `0` on either point, short-circuits to "not suspicious". -/
def detectImpossibleSpeed (m : JsMath) (lastLocation currentLocation : Option SpeedLocation) :
    Suspicion :=
  match lastLocation, currentLocation with
  | some lastLoc, some curLoc =>
    if lastLoc.latitude == 0 || lastLoc.longitude == 0 ||
        curLoc.latitude == 0 || curLoc.longitude == 0 then
      { suspicious := false, reason := none }
    else if timeDiffHours lastLoc curLoc ≤ 0 then
      { suspicious := true, reason := some "Invalid time sequence detected" }
    else if impliedSpeedKmh m lastLoc curLoc > MAX_SPEED_KMH then
      { suspicious := true,
        reason := some "Travel speed exceeds maximum allowed" }
    else
      { suspicious := false, reason := none }
  | _, _ => { suspicious := false, reason := none }

/-- Result of `validateGpsAccuracy`. -/
structure AccuracyCheck where
  valid : Bool
  warning : Option String
  error : Option String
  deriving DecidableEq

/-- `validateGpsAccuracy` of `src/utils/spoofingDetection.js` (lines 105-128). -/
def validateGpsAccuracy (accuracy : Option ℚ) : AccuracyCheck :=
  match accuracy with
  | none => { valid := true, warning := none, error := none }
  | some acc =>
    if acc > MAX_ACCEPTABLE_ACCURACY then
      { valid := false, warning := none,
        error := some "GPS accuracy too low. Please move to an open area for better GPS signal." }
    else if acc < MIN_SUSPICIOUS_ACCURACY then
      { valid := true,
        warning := some "Unusually precise GPS reading. This may indicate a simulated location.",
        error := none }
    else
      { valid := true, warning := none, error := none }

/-- `detectMockLocation` of `src/utils/spoofingDetection.js` (lines 90-98). -/
def detectMockLocation (isMocked : Option Bool) : Suspicion :=
  if isMocked == some true then
    { suspicious := true, reason := some "Mock location detected. Please disable fake GPS apps." }
  else
    { suspicious := false, reason := none }

/-! ## Data model: database tables -/

/-- JSONB metadata of a record.  The keys the conflict resolver writes are
modelled as dedicated optional fields; all other keys live in `extra`. -/
structure Metadata where
  conflict_resolved : Option Bool
  resolution_strategy : Option String
  resolved_at : Option ℚ
  extra : List (String × String)
  deriving DecidableEq

/-- The empty JS object `{}`. -/
def Metadata.empty : Metadata := ⟨none, none, none, []⟩

/-- JS object spread on the free-form keys: `{...other, ...base}` — keys of
`base` override keys of `other`. -/
def spreadExtra (other base : List (String × String)) : List (String × String) :=
  base ++ other.filter fun kv => !(base.any fun kv2 => kv2.1 == kv.1)

/-- JS object spread `{...other, ...base}` on metadata objects. -/
def spreadMeta (other base : Metadata) : Metadata :=
  { conflict_resolved := base.conflict_resolved <|> other.conflict_resolved,
    resolution_strategy := base.resolution_strategy <|> other.resolution_strategy,
    resolved_at := base.resolved_at <|> other.resolved_at,
    extra := spreadExtra other.extra base.extra }

/-- A row of the `attendance` table (columns of the schema in
`admin.service.js` plus the tracking columns used by the attendance
service). -/
structure AttendanceRow where
  id : ℕ
  user_id : ℕ
  facility_id : ℕ
  clock_in_time : ℚ
  clock_out_time : Option ℚ
  clock_in_latitude : Option ℚ
  clock_in_longitude : Option ℚ
  clock_out_latitude : Option ℚ
  clock_out_longitude : Option ℚ
  clock_in_accuracy_meters : Option ℚ
  clock_in_distance_meters : Option ℤ
  clock_out_accuracy_meters : Option ℚ
  clock_out_distance_meters : Option ℤ
  device_fingerprint : Option String
  validation_status : String
  status : String
  notes : Option String
  device_id : Option String
  client_timestamp : Option ℚ
  synced : Bool
  sync_version : ℚ
  conflict_resolution_strategy : String
  metadata : Metadata
  created_at : ℚ
  deriving DecidableEq

/-- A row of the append-only `activities` audit table (fields the claims
consult). -/
structure Activity where
  user_id : Option ℕ
  action : String
  deriving DecidableEq

/-- A row of the `user_sessions` table. -/
structure Session where
  id : ℕ
  user_id : ℕ
  token_hash : ℕ
  device_fingerprint : Option String
  is_active : Bool
  expires_at : ℚ
  invalidated_at : Option ℚ
  invalidation_reason : Option String
  deriving DecidableEq

/-- A row of the `users` table (fields the session/auth code consults). -/
structure UserRow where
  id : ℕ
  is_active : Bool
  facility_id : Option ℕ
  deriving DecidableEq

/-- The database state threaded through the embedded operations.  `nextId`
supplies fresh primary keys for inserts. -/
structure Db where
  attendance : List AttendanceRow
  facilities : List Facility
  sessions : List Session
  users : List UserRow
  activities : List Activity
  nextId : ℕ
  deriving DecidableEq

/-- `ORDER BY clock_in_time DESC LIMIT 1` over a list of rows (first listed
row wins ties, matching an arbitrary but fixed database order). -/
def latestClockIn : List AttendanceRow → Option AttendanceRow
  | [] => none
  | r :: rs =>
    match latestClockIn rs with
    | none => some r
    | some b => if b.clock_in_time > r.clock_in_time then some b else some r

/-- `findActiveByUserId` of `attendance.repository.js` (lines 35-47):
`WHERE user_id = $1 AND status = 'active' AND clock_out_time IS NULL
ORDER BY clock_in_time DESC LIMIT 1`. -/
def findActiveByUserId (rows : List AttendanceRow) (userId : ℕ) : Option AttendanceRow :=
  latestClockIn (rows.filter fun a =>
    a.user_id == userId && a.status == "active" && a.clock_out_time == none)

/-- `getLastAttendanceWithLocation` of `src/utils/spoofingDetection.js`
(lines 135-153): the user's most recent attendance whose clock-in
coordinates are both non-null. -/
def getLastAttendanceWithLocation (rows : List AttendanceRow) (userId : ℕ) :
    Option AttendanceRow :=
  latestClockIn (rows.filter fun a =>
    a.user_id == userId && a.clock_in_latitude.isSome && a.clock_in_longitude.isSome)

/-! ## `runSpoofingChecks` (`src/utils/spoofingDetection.js`, lines 190-253) -/

/-- The location payload handed to `runSpoofingChecks` by the attendance
service (coordinates have already passed `validateGpsCoordinates` there, so
they are plain numbers). -/
structure LocationData where
  latitude : ℚ
  longitude : ℚ
  accuracy : Option ℚ
  is_mocked : Option Bool
  deriving DecidableEq

/-- Aggregate result of `runSpoofingChecks`. -/
structure SpoofResult where
  passed : Bool
  errors : List String
  warnings : List String
  flags : List String
  deriving DecidableEq

/-- `runSpoofingChecks`: mock-location, accuracy and impossible-speed checks
aggregated; a speed rejection also appends a `suspicious_location` row to
the `activities` audit table (`logSuspiciousActivity`).  The speed check
only runs when the current coordinates are truthy (`locationData.latitude &&
locationData.longitude`; the always-present `userId` is likewise truthy) and
a prior attendance with location exists. -/
def runSpoofingChecks (m : JsMath) (locationData : LocationData) (userId : ℕ)
    (db : Db) (now : ℚ) : SpoofResult × Db :=
  let results0 : SpoofResult := { passed := true, errors := [], warnings := [], flags := [] }
  let mockCheck := detectMockLocation locationData.is_mocked
  let results1 :=
    if mockCheck.suspicious then
      { results0 with
        passed := false,
        errors := results0.errors ++ [mockCheck.reason.getD ""],
        flags := results0.flags ++ ["mock_location"] }
    else results0
  let accuracyCheck := validateGpsAccuracy locationData.accuracy
  let results2 :=
    if !accuracyCheck.valid then
      { results1 with
        passed := false,
        errors := results1.errors ++ [accuracyCheck.error.getD ""],
        flags := results1.flags ++ ["low_accuracy"] }
    else results1
  let results3 :=
    match accuracyCheck.warning with
    | some w =>
      { results2 with
        warnings := results2.warnings ++ [w],
        flags := results2.flags ++ ["suspicious_accuracy"] }
    | none => results2
  if locationData.latitude != 0 && locationData.longitude != 0 then
    match getLastAttendanceWithLocation db.attendance userId with
    | some lastAttendance =>
      let speedCheck := detectImpossibleSpeed m
        (some { latitude := lastAttendance.clock_in_latitude.getD 0,
                longitude := lastAttendance.clock_in_longitude.getD 0,
                timestamp := lastAttendance.clock_in_time })
        (some { latitude := locationData.latitude,
                longitude := locationData.longitude,
                timestamp := now })
      if speedCheck.suspicious then
        ({ results3 with
           passed := false,
           errors := results3.errors ++ [speedCheck.reason.getD ""],
           flags := results3.flags ++ ["impossible_speed"] },
         { db with activities :=
             db.activities ++ [{ user_id := some userId, action := "suspicious_location" }] })
      else (results3, db)
    | none => (results3, db)
  else (results3, db)

/-! ## Attendance service (`src/modules/attendance/attendance.service.js`) -/

/-- The clock-in request payload. -/
structure ClockInData where
  facility_id : Option ℕ
  clock_in_time : Option ℚ
  clock_in_latitude : Option ℚ
  clock_in_longitude : Option ℚ
  accuracy : Option ℚ
  is_mocked : Option Bool
  device_fingerprint : Option String
  device_id : Option String
  client_timestamp : Option ℚ
  synced : Option Bool
  metadata : Metadata
  deriving DecidableEq

/-- The clock-out request payload. -/
structure ClockOutData where
  clock_out_time : Option ℚ
  clock_out_latitude : Option ℚ
  clock_out_longitude : Option ℚ
  accuracy : Option ℚ
  is_mocked : Option Bool
  notes : Option String
  synced : Option Bool
  metadata : Metadata
  deriving DecidableEq

/-- The authenticated user object handed to the attendance service. -/
structure ServiceUser where
  id : ℕ
  facility_id : Option ℕ
  deriving DecidableEq

/-- `attendanceRepository.clockIn` (lines 54-82 of
`attendance.repository.js`): `INSERT INTO attendance (...)`.  Columns the
insert does not mention take their schema defaults: `status = 'active'`,
`sync_version = 1`, `conflict_resolution_strategy = 'server_wins'`,
`created_at = CURRENT_TIMESTAMP`.  The key-by-key metadata bookkeeping the
service performs (methods, warnings, distances) is carried opaquely in the
payload's `metadata`. -/
def repoClockIn (db : Db) (userId facilityId : ℕ) (clockInTime : ℚ)
    (lat lon : Option ℚ) (accuracyMeters : Option ℚ) (distanceMeters : Option ℤ)
    (deviceFingerprint : Option String) (validationStatus : String)
    (deviceId : Option String) (clientTimestamp : ℚ) (synced : Bool)
    (metadata : Metadata) (now : ℚ) : AttendanceRow × Db :=
  let row : AttendanceRow :=
    { id := db.nextId, user_id := userId, facility_id := facilityId,
      clock_in_time := clockInTime, clock_out_time := none,
      clock_in_latitude := lat, clock_in_longitude := lon,
      clock_out_latitude := none, clock_out_longitude := none,
      clock_in_accuracy_meters := accuracyMeters,
      clock_in_distance_meters := distanceMeters,
      clock_out_accuracy_meters := none, clock_out_distance_meters := none,
      device_fingerprint := deviceFingerprint,
      validation_status := validationStatus, status := "active", notes := none,
      device_id := deviceId, client_timestamp := some clientTimestamp,
      synced := synced, sync_version := 1,
      conflict_resolution_strategy := "server_wins", metadata := metadata,
      created_at := now }
  (row, { db with attendance := db.attendance ++ [row], nextId := db.nextId + 1 })

/-- The persistence tail of `clockIn` (lines 128-171 of
`attendance.service.js`): build the attendance row, insert it, and append
the `clock_in` activity-log row. -/
def clockInPersist (clockInData : ClockInData) (user : ServiceUser) (facilityId : ℕ)
    (validationStatus : String) (accuracyMeters : Option ℚ)
    (distanceMeters : Option ℤ) (db : Db) (now : ℚ) :
    Except String AttendanceRow × Db :=
  let (row, db1) := repoClockIn db user.id facilityId
    (clockInData.clock_in_time.getD now)
    clockInData.clock_in_latitude clockInData.clock_in_longitude
    accuracyMeters distanceMeters clockInData.device_fingerprint
    validationStatus clockInData.device_id
    (clockInData.client_timestamp.getD now)
    (clockInData.synced.getD true) clockInData.metadata now
  (.ok row,
   { db1 with activities := db1.activities ++ [{ user_id := some user.id, action := "clock_in" }] })

/-- `clockIn` of `attendance.service.js` (lines 21-172).  Validation order is
that of the source: active-record check, facility resolution, then (online
only) coordinate validation, accuracy validation, spoofing checks, geofence
validation; any failure aborts before the attendance insert.  Offline
requests (`synced === false`) skip the spatial checks and are persisted as
`unverified`.  Error messages that the code builds by string interpolation
are modelled by their fixed prefix. -/
def clockIn (m : JsMath) (postgis : Option (ℚ → ℚ → ℚ → ℚ → ℚ))
    (clockInData : ClockInData) (user : ServiceUser) (db : Db) (now : ℚ) :
    Except String AttendanceRow × Db :=
  match findActiveByUserId db.attendance user.id with
  | some _ => (.error "You already have an active clock-in. Please clock out first.", db)
  | none =>
    match clockInData.facility_id <|> user.facility_id with
    | none => (.error "Facility ID is required. Please ensure you are assigned to a facility.", db)
    | some facilityId =>
      if clockInData.synced != some false then
        let coordValidation := validateGpsCoordinates
          clockInData.clock_in_latitude clockInData.clock_in_longitude
        if !coordValidation.isValid then
          (.error (coordValidation.error.getD ""), db)
        else
          let validationStatus :=
            if coordValidation.warning.isSome then "flagged" else "verified"
          match clockInData.accuracy with
          | none => (.error "GPS accuracy is required for clock-in", db)
          | some accuracy =>
            if accuracy > MAX_ACCEPTABLE_ACCURACY then
              (.error "GPS accuracy too low. Please move to an open area for better GPS signal.", db)
            else
              let (spoofingResult, db1) := runSpoofingChecks m
                { latitude := clockInData.clock_in_latitude.getD 0,
                  longitude := clockInData.clock_in_longitude.getD 0,
                  accuracy := some accuracy,
                  is_mocked := clockInData.is_mocked } user.id db now
              if !spoofingResult.passed then
                (.error (spoofingResult.errors.headD "Location verification failed"), db1)
              else
                let validationStatus :=
                  if spoofingResult.warnings != [] then "flagged" else validationStatus
                let geofenceResult := validateGeofence m postgis db1.facilities
                  facilityId (clockInData.clock_in_latitude.getD 0)
                  (clockInData.clock_in_longitude.getD 0)
                if strTruthy geofenceResult.error then
                  (.error (geofenceResult.error.getD ""), db1)
                else if !geofenceResult.isWithinGeofence then
                  (.error "You are too far away from the facility.", db1)
                else
                  clockInPersist clockInData user facilityId validationStatus
                    (some accuracy) geofenceResult.distance db1 now
      else
        clockInPersist clockInData user facilityId "unverified" none none db now

/-- `attendanceRepository.clockOut` (lines 90-117 of
`attendance.repository.js`): `UPDATE attendance SET ... status = 'completed'
WHERE id = $8`.  `notes`/`metadata` use SQL `COALESCE` (null-coalescing, not
truthiness). -/
def repoClockOut (db : Db) (attendanceId : ℕ) (clockOutTime : ℚ)
    (lat lon : Option ℚ) (accuracyMeters : Option ℚ) (distanceMeters : Option ℤ)
    (notes : Option String) (metadata : Metadata) : Option AttendanceRow × Db :=
  let updateRow := fun (a : AttendanceRow) =>
    { a with
      clock_out_time := some clockOutTime,
      clock_out_latitude := lat, clock_out_longitude := lon,
      clock_out_accuracy_meters := accuracyMeters,
      clock_out_distance_meters := distanceMeters,
      status := "completed",
      notes := notes <|> a.notes,
      metadata := metadata }
  let updated := db.attendance.map fun a =>
    if a.id == attendanceId then updateRow a else a
  ((db.attendance.find? fun a => a.id == attendanceId).map updateRow,
   { db with attendance := updated })

/-- `clockOut` of `attendance.service.js` (lines 180-316): require an active
attendance, run the same online validation pipeline against the active
record's facility, then update the row to `completed` and append the
`clock_out` activity row. -/
def clockOut (m : JsMath) (postgis : Option (ℚ → ℚ → ℚ → ℚ → ℚ))
    (clockOutData : ClockOutData) (user : ServiceUser) (db : Db) (now : ℚ) :
    Except String AttendanceRow × Db :=
  match findActiveByUserId db.attendance user.id with
  | none => (.error "No active clock-in found. Please clock in first.", db)
  | some activeAttendance =>
    let finish := fun (accuracyMeters : Option ℚ) (distanceMeters : Option ℤ)
        (db' : Db) =>
      let (updated?, db2) := repoClockOut db' activeAttendance.id
        (clockOutData.clock_out_time.getD now)
        clockOutData.clock_out_latitude clockOutData.clock_out_longitude
        accuracyMeters distanceMeters clockOutData.notes
        (spreadMeta activeAttendance.metadata clockOutData.metadata)
      match updated? with
      | some row =>
        (.ok row,
         { db2 with activities :=
             db2.activities ++ [{ user_id := some user.id, action := "clock_out" }] })
      | none => (.error "Attendance record not found", db2)
    if clockOutData.synced != some false then
      let coordValidation := validateGpsCoordinates
        clockOutData.clock_out_latitude clockOutData.clock_out_longitude
      if !coordValidation.isValid then
        (.error (coordValidation.error.getD ""), db)
      else
        match clockOutData.accuracy with
        | none => (.error "GPS accuracy is required for clock-out", db)
        | some accuracy =>
          if accuracy > MAX_ACCEPTABLE_ACCURACY then
            (.error "GPS accuracy too low. Please move to an open area for better GPS signal.", db)
          else
            let (spoofingResult, db1) := runSpoofingChecks m
              { latitude := clockOutData.clock_out_latitude.getD 0,
                longitude := clockOutData.clock_out_longitude.getD 0,
                accuracy := some accuracy,
                is_mocked := clockOutData.is_mocked } user.id db now
            if !spoofingResult.passed then
              (.error (spoofingResult.errors.headD "Location verification failed"), db1)
            else
              let geofenceResult := validateGeofence m postgis db1.facilities
                activeAttendance.facility_id
                (clockOutData.clock_out_latitude.getD 0)
                (clockOutData.clock_out_longitude.getD 0)
              if strTruthy geofenceResult.error then
                (.error (geofenceResult.error.getD ""), db1)
              else if !geofenceResult.isWithinGeofence then
                (.error "You are too far away from the facility.", db1)
              else
                finish (some accuracy) geofenceResult.distance db1
    else
      finish none none db

/-! ## Sync conflict resolution (`src/utils/syncResolver.js`) -/

/-- JS `v || null` on an optional number (`0` collapses to `null`). -/
def jsOrNullNum (v : Option ℚ) : Option ℚ :=
  if numTruthy v then v else none

/-- JS `v || null` on an optional string (`""` collapses to `null`). -/
def jsOrNullStr (v : Option String) : Option String :=
  if strTruthy v then v else none

/-- A record as handled by the conflict resolver: every field may be absent
on either side.  Timestamps are epoch milliseconds. -/
structure SyncRecord where
  id : Option ℕ
  created_at : Option ℚ
  server_timestamp : Option ℚ
  clock_in_time : Option ℚ
  clock_out_time : Option ℚ
  status : Option String
  sync_version : Option ℚ
  synced : Option Bool
  metadata : Metadata
  deriving DecidableEq

/-- The per-field comparison of `detectConflict` for the timestamp-valued
critical fields (`clock_in_time`, `clock_out_time`): unequal values are a
conflict unless both are truthy and within 1 second of each other. -/
def timeFieldConflict (clientValue serverValue : Option ℚ) : Bool :=
  if clientValue != serverValue then
    if numTruthy clientValue && numTruthy serverValue then
      |clientValue.getD 0 - serverValue.getD 0| > 1000
    else true
  else false

/-- `detectConflict` of `src/utils/syncResolver.js` (lines 97-128): differing
`sync_version`, or a differing critical field (`clock_in_time`,
`clock_out_time` with 1-second tolerance, `status`). -/
def detectConflict (clientRecord serverRecord : SyncRecord) : Bool :=
  clientRecord.sync_version != serverRecord.sync_version ||
  timeFieldConflict clientRecord.clock_in_time serverRecord.clock_in_time ||
  timeFieldConflict clientRecord.clock_out_time serverRecord.clock_out_time ||
  clientRecord.status != serverRecord.status

/-- `mergeRecords` of `src/utils/syncResolver.js` (lines 137-165): start from
the preferred side, always retain the server's `id`/`created_at`, stamp
`server_timestamp`, set `sync_version = max(client||1, server||1) + 1`, mark
`synced`, and merge metadata with `{conflict_resolved, resolution_strategy,
resolved_at}` added. -/
def mergeRecords (now : ℚ) (clientRecord serverRecord : SyncRecord)
    (preference : String) : SyncRecord :=
  let base := if preference == "client" then clientRecord else serverRecord
  let other := if preference == "client" then serverRecord else clientRecord
  let mergedMeta := spreadMeta other.metadata base.metadata
  { base with
    id := serverRecord.id,
    created_at := serverRecord.created_at,
    server_timestamp := some now,
    sync_version := some (max (jsOrNum clientRecord.sync_version 1)
      (jsOrNum serverRecord.sync_version 1) + 1),
    synced := some true,
    metadata :=
      { mergedMeta with
        conflict_resolved := some true,
        resolution_strategy := some preference,
        resolved_at := some now } }

/-- Result object of `resolveConflict`. -/
structure Resolution where
  resolved : Option SyncRecord
  action : String
  conflict : Bool
  resolution : Option String
  deriving DecidableEq

/-- `resolveConflict` of `src/utils/syncResolver.js` (lines 25-89): insert
when no server record exists, no-op when the records do not conflict,
otherwise dispatch on the strategy string with `server_wins` as the default
for unrecognized strategies. -/
def resolveConflict (now : ℚ) (clientRecord : SyncRecord)
    (serverRecord : Option SyncRecord) (strategy : String) : Resolution :=
  match serverRecord with
  | none =>
    { resolved := some clientRecord, action := "insert", conflict := false,
      resolution := none }
  | some sr =>
    if !(detectConflict clientRecord sr) then
      { resolved := some sr, action := "no_change", conflict := false,
        resolution := none }
    else if strategy == "client_wins" then
      { resolved := some (mergeRecords now clientRecord sr "client"),
        action := "update", conflict := true, resolution := some "client_wins" }
    else if strategy == "server_wins" then
      { resolved := some sr, action := "no_change", conflict := true,
        resolution := some "server_wins" }
    else if strategy == "manual" then
      { resolved := none, action := "manual_review", conflict := true,
        resolution := some "manual" }
    else
      { resolved := some sr, action := "no_change", conflict := true,
        resolution := some "server_wins_default" }

/-- A client record submitted to the offline-sync endpoint, as consumed by
`validateSyncMetadata` and `attendanceRepository.bulkSync`. -/
structure BulkRecord where
  user_id : Option ℕ
  facility_id : Option ℕ
  clock_in_time : Option ℚ
  clock_out_time : Option ℚ
  clock_in_latitude : Option ℚ
  clock_in_longitude : Option ℚ
  clock_out_latitude : Option ℚ
  clock_out_longitude : Option ℚ
  status : Option String
  notes : Option String
  client_timestamp : Option ℚ
  device_id : Option String
  sync_version : Option ℚ
  conflict_resolution_strategy : Option String
  metadata : Metadata
  deriving DecidableEq

/-- Result of `validateSyncMetadata`. -/
structure SyncValidation where
  isValid : Bool
  errors : List String
  deriving DecidableEq

/-- `validateSyncMetadata` of `src/utils/syncResolver.js` (lines 234-265).
Note that the more-than-30-days-old case is pushed onto the same `errors`
list as the hard failures (despite the inline comment saying "Warn"), so it
makes the record invalid. -/
def validateSyncMetadata (now : ℚ) (record : BulkRecord) : SyncValidation :=
  let errors :=
    (if !(strTruthy record.device_id) then ["device_id is required for sync"] else []) ++
    (if !(numTruthy record.client_timestamp) then ["client_timestamp is required for sync"] else []) ++
    (if numTruthy record.client_timestamp then
      let clientTime := record.client_timestamp.getD 0
      let daysDiff := (now - clientTime) / (1000 * 60 * 60 * 24)
      (if daysDiff > 30 then ["client_timestamp is more than 30 days old"] else []) ++
      (if clientTime > now then ["client_timestamp is in the future"] else [])
    else [])
  { isValid := errors.isEmpty, errors := errors }

/-! ## Persisted bulk sync (`attendance.repository.js`, `bulkSync`, lines 225-321) -/

/-- SQL `=` between two nullable values: `NULL` never compares equal. -/
def sqlEqNum : Option ℚ → Option ℚ → Bool
  | some a, some b => a == b
  | _, _ => false

/-- SQL `=` between two nullable strings: `NULL` never compares equal. -/
def sqlEqStr : Option String → Option String → Bool
  | some a, some b => a == b
  | _, _ => false

/-- The per-record outcome inside `bulkSync`: a new row inserted, an
existing row updated, or nothing (matching record with a sync version that
is not strictly higher). -/
inductive SyncOutcome where
  | inserted (row : AttendanceRow)
  | updated (row : AttendanceRow)
  | nochange
  deriving DecidableEq

/-- One iteration of the `bulkSync` loop: look the record up by
`(device_id, client_timestamp)`; insert it when absent; update the existing
row only when the incoming `sync_version || 1` is strictly greater than the
stored one (the row then takes `record.sync_version || existing + 1` — the
client's value whenever it is truthy); otherwise leave the row untouched.
The update never reads `conflict_resolution_strategy`. -/
def processSyncRecord (db : Db) (record : BulkRecord) (now : ℚ) :
    SyncOutcome × Db :=
  match db.attendance.find? (fun a =>
      sqlEqStr a.device_id record.device_id &&
      sqlEqNum a.client_timestamp record.client_timestamp) with
  | none =>
    let row : AttendanceRow :=
      { id := db.nextId,
        user_id := record.user_id.getD 0,
        facility_id := record.facility_id.getD 0,
        clock_in_time := record.clock_in_time.getD 0,
        clock_out_time := jsOrNullNum record.clock_out_time,
        clock_in_latitude := jsOrNullNum record.clock_in_latitude,
        clock_in_longitude := jsOrNullNum record.clock_in_longitude,
        clock_out_latitude := jsOrNullNum record.clock_out_latitude,
        clock_out_longitude := jsOrNullNum record.clock_out_longitude,
        clock_in_accuracy_meters := none, clock_in_distance_meters := none,
        clock_out_accuracy_meters := none, clock_out_distance_meters := none,
        device_fingerprint := none,
        -- the insert does not mention validation_status; its schema default
        -- is not consulted by any claim
        validation_status := "unverified",
        status := if strTruthy record.status then record.status.getD "" else "completed",
        notes := jsOrNullStr record.notes,
        device_id := record.device_id,
        client_timestamp := record.client_timestamp,
        synced := true,
        sync_version := jsOrNum record.sync_version 1,
        conflict_resolution_strategy :=
          if strTruthy record.conflict_resolution_strategy then
            record.conflict_resolution_strategy.getD "" else "server_wins",
        metadata := record.metadata,
        created_at := now }
    (.inserted row,
     { db with attendance := db.attendance ++ [row], nextId := db.nextId + 1 })
  | some existingRecord =>
    if jsOrNum record.sync_version 1 > existingRecord.sync_version then
      let updatedRow :=
        { existingRecord with
          clock_out_time := jsOrOptNum record.clock_out_time existingRecord.clock_out_time,
          clock_out_latitude := jsOrOptNum record.clock_out_latitude existingRecord.clock_out_latitude,
          clock_out_longitude := jsOrOptNum record.clock_out_longitude existingRecord.clock_out_longitude,
          status := if strTruthy record.status then record.status.getD "" else existingRecord.status,
          notes := jsOrOptStr record.notes existingRecord.notes,
          sync_version := jsOrNum record.sync_version (existingRecord.sync_version + 1),
          metadata := spreadMeta existingRecord.metadata record.metadata }
      (.updated updatedRow,
       { db with attendance := db.attendance.map fun a =>
           if a.id == existingRecord.id then updatedRow else a })
    else
      (.nochange, db)

/-- `bulkSync`: process the records sequentially inside one transaction,
collecting a per-record outcome; a record never aborts the processing of the
following ones. -/
def bulkSync (now : ℚ) : List BulkRecord → Db → List SyncOutcome × Db
  | [], db => ([], db)
  | record :: rest, db =>
    let (outcome, db1) := processSyncRecord db record now
    let (outcomes, db2) := bulkSync now rest db1
    (outcome :: outcomes, db2)

/-- Counts reported by `syncOfflineRecords`, plus the per-record outcomes of
the underlying `bulkSync` call. -/
structure SyncResponse where
  success : Bool
  total_submitted : ℕ
  valid_records : ℕ
  inserted : ℕ
  updated : ℕ
  validation_errors : ℕ
  outcomes : List SyncOutcome
  deriving DecidableEq

/-- `syncOfflineRecords` of `attendance.service.js` (lines 324-399): stamp
each record with the authenticated user's id, validate its sync metadata,
collect invalid records as validation errors, refuse only when no record at
all is valid, and hand the valid records to `bulkSync`; a `sync` activity
row is appended on success. -/
def syncOfflineRecords (now : ℚ) (records : List BulkRecord) (user : ServiceUser)
    (db : Db) : SyncResponse × Db :=
  let withUser := records.map fun r => { r with user_id := some user.id }
  let validationErrors := withUser.filter fun r => !(validateSyncMetadata now r).isValid
  let validRecords := withUser.filter fun r => (validateSyncMetadata now r).isValid
  if validRecords.isEmpty then
    ({ success := false, total_submitted := records.length, valid_records := 0,
       inserted := 0, updated := 0, validation_errors := validationErrors.length,
       outcomes := [] }, db)
  else
    let (outcomes, db1) := bulkSync now validRecords db
    ({ success := true,
       total_submitted := records.length,
       valid_records := validRecords.length,
       inserted := (outcomes.filter fun o => match o with | .inserted _ => true | _ => false).length,
       updated := (outcomes.filter fun o => match o with | .updated _ => true | _ => false).length,
       validation_errors := validationErrors.length,
       outcomes := outcomes },
     { db1 with activities := db1.activities ++ [{ user_id := some user.id, action := "sync" }] })

/-! ## Session management (`src/modules/sessions/sessions.repository.js`,
login of `auth.service.js`, `src/middleware/auth.middleware.js`) -/

/-- `invalidateUserSessions` (lines 266-294 of `sessions.repository.js`):
deactivate every active session of the user (optionally sparing one),
stamping the invalidation reason. -/
def invalidateUserSessions (db : Db) (userId : ℕ) (reason : String)
    (exceptSessionId : Option ℕ) (now : ℚ) : Db :=
  { db with sessions := db.sessions.map fun s =>
      if s.user_id == userId && s.is_active &&
          (match exceptSessionId with | some e => s.id != e | none => true) then
        { s with is_active := false, invalidated_at := some now,
                 invalidation_reason := some reason }
      else s }

/-- `createSession` (lines 231-257 of `sessions.repository.js`): insert an
active session row holding the hash of the token.  The hash function
(SHA-256 in the source) is an abstract parameter. -/
def createSession (hash : ℕ → ℕ) (db : Db) (userId : ℕ) (token : ℕ)
    (deviceFingerprint : Option String) (expiresAt : ℚ) : Db :=
  let s : Session :=
    { id := db.nextId, user_id := userId, token_hash := hash token,
      device_fingerprint := deviceFingerprint, is_active := true,
      expires_at := expiresAt, invalidated_at := none,
      invalidation_reason := none }
  { db with sessions := db.sessions ++ [s], nextId := db.nextId + 1 }

/-- The session-management slice of `login` in `auth.service.js` (lines
741-752): invalidate all of the user's active sessions with reason
`new_login`, and only then insert the new session row.  Credential
verification, token generation and device registration are external to the
session state and not modelled. -/
def loginSessions (hash : ℕ → ℕ) (db : Db) (userId : ℕ) (token : ℕ)
    (deviceFingerprint : Option String) (expiresAt : ℚ) (now : ℚ) : Db :=
  createSession hash (invalidateUserSessions db userId "new_login" none now)
    userId token deviceFingerprint expiresAt

/-- `findActiveSessionByToken` (lines 301-315 of `sessions.repository.js`):
the session whose stored hash matches the token's hash, still active and
unexpired, inner-joined to its user (returning the user's `is_active`). -/
def findActiveSessionByToken (hash : ℕ → ℕ) (db : Db) (token : ℕ) (now : ℚ) :
    Option (Session × Bool) :=
  (db.sessions.find? fun s =>
      s.token_hash == hash token && s.is_active && s.expires_at > now).bind
    fun s => (db.users.find? fun u => u.id == s.user_id).map fun u => (s, u.is_active)

/-- Outcome of the JWT verification step of the middleware. -/
inductive JwtVerify where
  | valid (userId : ℕ)
  | expired
  | invalid
  deriving DecidableEq

/-- The response produced by the `authenticate` middleware. -/
inductive AuthOutcome where
  | noToken
  | tokenExpired
  | invalidToken
  | sessionInvalidated
  | accountDeactivated
  | userNotFound
  | authenticated (userId : ℕ) (sessionId : Option ℕ)
  deriving DecidableEq

/-- `authenticate` of `src/middleware/auth.middleware.js` (lines 16-137):
bearer-token extraction, JWT verification, then session validation inside a
`try`/`catch` whose `catch` merely (conditionally) logs and continues — an
error thrown by the session lookup (modelled by `sessionLookupError`)
proceeds without session validation — and finally the active-user fetch. -/
def authenticate (hash : ℕ → ℕ) (db : Db) (sessionLookupError : Option String)
    (tokenHeader : Option ℕ) (verify : ℕ → JwtVerify) (now : ℚ) : AuthOutcome :=
  match tokenHeader with
  | none => .noToken
  | some token =>
    match verify token with
    | .expired => .tokenExpired
    | .invalid => .invalidToken
    | .valid userId =>
      let fetchUser := fun (sessionId : Option ℕ) =>
        match db.users.find? fun u => u.id == userId && u.is_active with
        | none => AuthOutcome.userNotFound
        | some u => AuthOutcome.authenticated u.id sessionId
      match sessionLookupError with
      | some _ => fetchUser none
      | none =>
        match findActiveSessionByToken hash db token now with
        | none => .sessionInvalidated
        | some (s, userIsActive) =>
          if !userIsActive then .accountDeactivated
          else fetchUser (some s.id)

/-! ## Sample data used by the witness theorems -/

/-- An attendance row that is currently active (no clock-out). -/
def sampleActiveRow : AttendanceRow :=
  { id := 1, user_id := 7, facility_id := 3, clock_in_time := 1000,
    clock_out_time := none, clock_in_latitude := some 10,
    clock_in_longitude := some 20, clock_out_latitude := none,
    clock_out_longitude := none, clock_in_accuracy_meters := some 40,
    clock_in_distance_meters := some 50, clock_out_accuracy_meters := none,
    clock_out_distance_meters := none, device_fingerprint := none,
    validation_status := "verified", status := "active", notes := none,
    device_id := some "dev-1", client_timestamp := some 1000, synced := true,
    sync_version := 1, conflict_resolution_strategy := "server_wins",
    metadata := Metadata.empty, created_at := 1000 }

/-- A user who owns `sampleActiveRow`. -/
def sampleUser : ServiceUser := { id := 7, facility_id := none }

/-- A database in which `sampleUser` has an active attendance. -/
def sampleDbActive : Db :=
  { attendance := [sampleActiveRow], facilities := [], sessions := [],
    users := [], activities := [], nextId := 2 }

/-- A clock-in payload that is invalid in every respect (no coordinates, no
accuracy, no facility). -/
def sampleBadInput : ClockInData :=
  { facility_id := none, clock_in_time := none, clock_in_latitude := none,
    clock_in_longitude := none, accuracy := none, is_mocked := none,
    device_fingerprint := none, device_id := none, client_timestamp := none,
    synced := none, metadata := Metadata.empty }

/-! ## C1 -/

/-- C1: whenever the user already has an attendance record with status
`active`, `clockIn` fails with the `AlreadyClockedIn` error message and
leaves the database (in particular the attendance table) unchanged, for
every input payload whatsoever — valid or not — because the active-record
existence check precedes every other validation of the payload. -/
theorem clockIn_active_always_rejected (m : JsMath)
    (postgis : Option (ℚ → ℚ → ℚ → ℚ → ℚ)) (input : ClockInData)
    (user : ServiceUser) (db : Db) (now : ℚ)
    (h : (findActiveByUserId db.attendance user.id).isSome) :
    clockIn m postgis input user db now =
      (.error "You already have an active clock-in. Please clock out first.", db) := by
  obtain ⟨r, hr⟩ := Option.isSome_iff_exists.mp h
  simp [clockIn, hr]

/-- C1 witness: a concrete database where user 7 is actively clocked in, and
a thoroughly invalid payload, still produce exactly the already-clocked-in
error with no state change. -/
theorem clockIn_active_always_rejected_witness :
    (findActiveByUserId sampleDbActive.attendance sampleUser.id).isSome ∧
    clockIn mathZero none sampleBadInput sampleUser sampleDbActive 5000 =
      (.error "You already have an active clock-in. Please clock out first.",
       sampleDbActive) :=
  ⟨by decide,
   clockIn_active_always_rejected mathZero none sampleBadInput sampleUser
     sampleDbActive 5000 (by decide)⟩

/-! ## C2 -/

/-- Helper: with unique facility ids, the active-facility lookup finds the
facility. -/
lemma findActiveFacility_eq_some (l : List Facility) (fid : ℕ) (f : Facility)
    (hf : f ∈ l) (hactive : f.is_active = true) (hid : f.id = fid)
    (huniq : ∀ g ∈ l, g.id = fid → g = f) :
    findActiveFacility l fid = some f := by
  induction l with
  | nil => cases hf
  | cons g t ih =>
    by_cases hc : (g.id == fid && g.is_active) = true
    · have hgid : g.id = fid := by
        have := (Bool.and_eq_true _ _).mp hc
        simpa using this.1
      have hgf : g = f := huniq g (List.mem_cons_self g t) hgid
      have hstep : findActiveFacility (g :: t) fid = some g := by
        unfold findActiveFacility
        exact List.find?_cons_of_pos _ hc
      rw [hstep, hgf]
    · have hft : f ∈ t := by
        rcases List.mem_cons.mp hf with hfg | hft
        · exfalso; apply hc; subst hfg; simp [hid, hactive]
        · exact hft
      have hstep : findActiveFacility (g :: t) fid = findActiveFacility t fid := by
        unfold findActiveFacility
        exact List.find?_cons_of_neg _ hc
      rw [hstep]
      exact ih hft fun g' hg' h' => huniq g' (List.mem_cons_of_mem _ hg') h'

/-- Helper: with unique facility ids, if the facility misses a coordinate
then the coordinate-requiring primary PostGIS query matches nothing. -/
lemma postgis_query_eq_none (l : List Facility) (fid : ℕ) (f : Facility)
    (huniq : ∀ g ∈ l, g.id = fid → g = f)
    (hnull : f.latitude = none ∨ f.longitude = none) :
    l.find? (fun g => g.id == fid && g.is_active
      && g.latitude.isSome && g.longitude.isSome) = none := by
  rw [List.find?_eq_none]
  intro g hg hp
  have h1 := (Bool.and_eq_true _ _).mp hp
  have h2 := (Bool.and_eq_true _ _).mp h1.1
  have h3 := (Bool.and_eq_true _ _).mp h2.1
  have hgid : g.id = fid := by simpa using h3.1
  have hgf : g = f := huniq g hg hgid
  subst hgf
  rcases hnull with h | h
  · rw [h] at h2; exact absurd h2.2 (by simp)
  · rw [h] at h1; exact absurd h1.2 (by simp)

/-- Helper: a facility that exists and is active but has a null coordinate
makes `validateGeofence` return the unconfigured-location hard error. -/
lemma validateGeofence_unconfigured (m : JsMath)
    (postgis : Option (ℚ → ℚ → ℚ → ℚ → ℚ)) (l : List Facility) (fid : ℕ)
    (f : Facility) (lat lon : ℚ)
    (hf : f ∈ l) (hactive : f.is_active = true) (hid : f.id = fid)
    (huniq : ∀ g ∈ l, g.id = fid → g = f)
    (hnull : f.latitude = none ∨ f.longitude = none) :
    validateGeofence m postgis l fid lat lon =
      { isWithinGeofence := false, distance := none,
        maxRadius := some (f.geofence_radius.getD 100), facilityName := none,
        error := some "Facility location not configured. Please contact your administrator.",
        warning := none } := by
  have hfa := findActiveFacility_eq_some l fid f hf hactive hid huniq
  have hfb : geofenceFallback m l fid lat lon =
      { isWithinGeofence := false, distance := none,
        maxRadius := some (f.geofence_radius.getD 100), facilityName := none,
        error := some "Facility location not configured. Please contact your administrator.",
        warning := none } := by
    have hcond : (!(numTruthy f.latitude) || !(numTruthy f.longitude)) = true := by
      rcases hnull with h | h <;> simp [h, numTruthy]
    simp [geofenceFallback, hfa, hcond]
  cases postgis with
  | none => simpa [validateGeofence] using hfb
  | some pg =>
    have hpg := postgis_query_eq_none l fid f huniq hnull
    simpa [validateGeofence, hpg] using hfb

/-- Helper: the spoofing checks never touch the attendance or facilities
tables (they only append to the audit log). -/
lemma runSpoofingChecks_preserves (m : JsMath) (loc : LocationData) (uid : ℕ)
    (db : Db) (now : ℚ) :
    (runSpoofingChecks m loc uid db now).2.attendance = db.attendance ∧
    (runSpoofingChecks m loc uid db now).2.facilities = db.facilities := by
  unfold runSpoofingChecks
  dsimp only
  repeat' split
  all_goals exact ⟨rfl, rfl⟩

/-- C2: for a facility that exists and is active but whose latitude or
longitude is null, `validateGeofence` returns the hard unconfigured-location
error (never a pass), and both the online clock-in and the online clock-out
operations against that facility are blocked with no attendance-table
mutation. -/
theorem geofence_null_coordinates_blocks (m : JsMath)
    (postgis : Option (ℚ → ℚ → ℚ → ℚ → ℚ)) (db : Db) (fid : ℕ) (f : Facility)
    (hf : f ∈ db.facilities) (hactive : f.is_active = true) (hid : f.id = fid)
    (huniq : ∀ g ∈ db.facilities, g.id = fid → g = f)
    (hnull : f.latitude = none ∨ f.longitude = none) :
    (∀ lat lon,
      (validateGeofence m postgis db.facilities fid lat lon).error =
        some "Facility location not configured. Please contact your administrator." ∧
      (validateGeofence m postgis db.facilities fid lat lon).isWithinGeofence = false) ∧
    (∀ (input : ClockInData) (user : ServiceUser) (now : ℚ),
      input.synced ≠ some false →
      (input.facility_id <|> user.facility_id) = some fid →
      (∃ e, (clockIn m postgis input user db now).1 = .error e) ∧
      (clockIn m postgis input user db now).2.attendance = db.attendance) ∧
    (∀ (out : ClockOutData) (user : ServiceUser) (now : ℚ) (a : AttendanceRow),
      out.synced ≠ some false →
      findActiveByUserId db.attendance user.id = some a → a.facility_id = fid →
      (∃ e, (clockOut m postgis out user db now).1 = .error e) ∧
      (clockOut m postgis out user db now).2.attendance = db.attendance) := by
  have hvg := fun lat lon => validateGeofence_unconfigured m postgis db.facilities
    fid f lat lon hf hactive hid huniq hnull
  refine ⟨fun lat lon => by rw [hvg lat lon]; exact ⟨rfl, rfl⟩, ?_, ?_⟩
  · intro input user now hs hfac
    cases hact : findActiveByUserId db.attendance user.id with
    | some a =>
      simp only [clockIn, hact]
      exact ⟨⟨_, rfl⟩, trivial⟩
    | none =>
      have hs' : (input.synced != some false) = true := bne_iff_ne.mpr hs
      simp only [clockIn, hact, hfac, hs', if_true]
      by_cases hcv : (validateGpsCoordinates input.clock_in_latitude
          input.clock_in_longitude).isValid
      · simp only [hcv, Bool.not_true, Bool.false_eq_true, if_false]
        cases hacc : input.accuracy with
        | none => exact ⟨⟨_, rfl⟩, rfl⟩
        | some acc =>
          by_cases ha : acc > MAX_ACCEPTABLE_ACCURACY
          · simp only [ha, if_true]
            exact ⟨⟨_, rfl⟩, trivial⟩
          · simp only [ha, if_false]
            rcases hrs : runSpoofingChecks m
              { latitude := input.clock_in_latitude.getD 0,
                longitude := input.clock_in_longitude.getD 0,
                accuracy := some acc,
                is_mocked := input.is_mocked } user.id db now with ⟨sr, db1⟩
            have hpres := runSpoofingChecks_preserves m
              { latitude := input.clock_in_latitude.getD 0,
                longitude := input.clock_in_longitude.getD 0,
                accuracy := some acc,
                is_mocked := input.is_mocked } user.id db now
            rw [hrs] at hpres
            by_cases hp : sr.passed
            · have hvg1 := validateGeofence_unconfigured m postgis db1.facilities
                fid f (input.clock_in_latitude.getD 0) (input.clock_in_longitude.getD 0)
                (hpres.2 ▸ hf) hactive hid (hpres.2 ▸ huniq) hnull
              simp only [hrs, hp, Bool.not_true, Bool.false_eq_true, if_false, hvg1]
              exact ⟨⟨_, rfl⟩, hpres.1⟩
            · simp only [hrs, Bool.not_eq_true] at hp ⊢
              simp only [hp, Bool.not_false, if_true]
              exact ⟨⟨_, rfl⟩, hpres.1⟩
      · simp only [Bool.not_eq_true] at hcv
        simp only [hcv, Bool.not_false, if_true]
        exact ⟨⟨_, rfl⟩, trivial⟩
  · intro out user now a hs hact hafid
    have hs' : (out.synced != some false) = true := bne_iff_ne.mpr hs
    simp only [clockOut, hact, hs', if_true]
    by_cases hcv : (validateGpsCoordinates out.clock_out_latitude
        out.clock_out_longitude).isValid
    · simp only [hcv, Bool.not_true, Bool.false_eq_true, if_false]
      cases hacc : out.accuracy with
      | none => exact ⟨⟨_, rfl⟩, rfl⟩
      | some acc =>
        by_cases ha : acc > MAX_ACCEPTABLE_ACCURACY
        · simp only [ha, if_true]
          exact ⟨⟨_, rfl⟩, trivial⟩
        · simp only [ha, if_false]
          rcases hrs : runSpoofingChecks m
            { latitude := out.clock_out_latitude.getD 0,
              longitude := out.clock_out_longitude.getD 0,
              accuracy := some acc,
              is_mocked := out.is_mocked } user.id db now with ⟨sr, db1⟩
          have hpres := runSpoofingChecks_preserves m
            { latitude := out.clock_out_latitude.getD 0,
              longitude := out.clock_out_longitude.getD 0,
              accuracy := some acc,
              is_mocked := out.is_mocked } user.id db now
          rw [hrs] at hpres
          by_cases hp : sr.passed
          · have hvg1 := validateGeofence_unconfigured m postgis db1.facilities
              fid f (out.clock_out_latitude.getD 0) (out.clock_out_longitude.getD 0)
              (hpres.2 ▸ hf) hactive hid (hpres.2 ▸ huniq) hnull
            rw [hafid] at *
            simp only [hrs, hp, Bool.not_true, Bool.false_eq_true, if_false, hafid, hvg1]
            exact ⟨⟨_, rfl⟩, hpres.1⟩
          · simp only [hrs, Bool.not_eq_true] at hp ⊢
            simp only [hp, Bool.not_false, if_true]
            exact ⟨⟨_, rfl⟩, hpres.1⟩
    · simp only [Bool.not_eq_true] at hcv
      simp only [hcv, Bool.not_false, if_true]
      exact ⟨⟨_, rfl⟩, trivial⟩

/-- An active facility with a null latitude. -/
def sampleNullFacility : Facility :=
  { id := 3, name := "HQ", latitude := none, longitude := some 30,
    geofence_radius := none, is_active := true }

/-- A database containing only the coordinate-less facility. -/
def sampleDbNullFac : Db :=
  { attendance := [], facilities := [sampleNullFacility], sessions := [],
    users := [], activities := [], nextId := 1 }

/-- An otherwise-valid online clock-in payload aimed at facility 3. -/
def sampleOnlineInput : ClockInData :=
  { facility_id := some 3, clock_in_time := some 0,
    clock_in_latitude := some 10, clock_in_longitude := some 20,
    accuracy := some 40, is_mocked := some false, device_fingerprint := none,
    device_id := some "dev-1", client_timestamp := some 0, synced := none,
    metadata := Metadata.empty }

/-- C2 witness: a concrete active facility with null latitude yields the
unconfigured-location error and a blocked clock-in with the attendance table
untouched. -/
theorem geofence_null_coordinates_blocks_witness :
    (validateGeofence mathZero none sampleDbNullFac.facilities 3 5 6).error =
      some "Facility location not configured. Please contact your administrator." ∧
    (∃ e, (clockIn mathZero none sampleOnlineInput sampleUser sampleDbNullFac 0).1 = .error e) ∧
    (clockIn mathZero none sampleOnlineInput sampleUser sampleDbNullFac 0).2.attendance =
      sampleDbNullFac.attendance := by
  have h := geofence_null_coordinates_blocks mathZero none sampleDbNullFac 3
    sampleNullFacility (by decide) (by decide) (by decide) (by decide)
    (Or.inl rfl)
  exact ⟨(h.1 5 6).1,
    (h.2.1 sampleOnlineInput sampleUser 0 (by decide) (by decide)).1,
    (h.2.1 sampleOnlineInput sampleUser 0 (by decide) (by decide)).2⟩

/-! ## C3 -/

/-- C3: login first invalidates every active session of the user with reason
`new_login` and only then inserts the new row, so after a login exactly one
session row of the user is active; consequently a request bearing an earlier
token (whose hash differs from the new token's and whose sessions belong to
this user) is rejected by the middleware with `SessionInvalidated`. -/
theorem login_enforces_single_active_session (hash : ℕ → ℕ) (db : Db)
    (uid : ℕ) (tok : ℕ) (fp : Option String) (expiresAt now : ℚ) :
    ((loginSessions hash db uid tok fp expiresAt now).sessions.filter
      (fun s => s.user_id == uid && s.is_active)).length = 1 ∧
    (∀ s ∈ db.sessions, s.user_id = uid → s.is_active = true →
      ({ s with
         is_active := false,
         invalidated_at := some now,
         invalidation_reason := some "new_login" } : Session) ∈
        (loginSessions hash db uid tok fp expiresAt now).sessions) ∧
    (∀ (t : ℕ) (verify : ℕ → JwtVerify) (u0 : ℕ) (tnow : ℚ),
      hash t ≠ hash tok →
      (∀ s ∈ db.sessions, s.token_hash = hash t → s.user_id = uid) →
      verify t = .valid u0 →
      authenticate hash (loginSessions hash db uid tok fp expiresAt now) none
        (some t) verify tnow = .sessionInvalidated) := by
  refine ⟨?_, ?_, ?_⟩
  · unfold loginSessions createSession invalidateUserSessions
    simp only [List.filter_append, List.length_append]
    have h1 : ((db.sessions.map fun s =>
        if s.user_id == uid && s.is_active &&
            (match (none : Option ℕ) with | some e => s.id != e | none => true) then
          { s with
            is_active := false,
            invalidated_at := some now,
            invalidation_reason := some "new_login" }
        else s).filter fun s => s.user_id == uid && s.is_active) = [] := by
      rw [List.filter_eq_nil_iff]
      intro a ha
      obtain ⟨s, _, rfl⟩ := List.mem_map.mp ha
      by_cases hc : (s.user_id == uid && s.is_active) = true
      · simp [hc]
      · simp only [Bool.and_true, hc, if_neg]
        simp only [Bool.not_eq_true]
        simpa using hc
    rw [h1]
    simp
  · intro s hs hu ha
    unfold loginSessions createSession invalidateUserSessions
    apply List.mem_append_left
    refine List.mem_map.mpr ⟨s, hs, ?_⟩
    simp [hu, ha]
  · intro t verify u0 tnow hneq hown hv
    have hfind : findActiveSessionByToken hash
        (loginSessions hash db uid tok fp expiresAt now) t tnow = none := by
      unfold findActiveSessionByToken
      have hnone : ((loginSessions hash db uid tok fp expiresAt now).sessions.find?
          fun s => s.token_hash == hash t && s.is_active && s.expires_at > tnow) = none := by
        rw [List.find?_eq_none]
        intro s hs hp
        have hp1 := (Bool.and_eq_true _ _).mp hp
        have hp2 := (Bool.and_eq_true _ _).mp hp1.1
        have hhash : s.token_hash = hash t := by simpa using hp2.1
        have hsact : s.is_active = true := hp2.2
        unfold loginSessions createSession invalidateUserSessions at hs
        rcases List.mem_append.mp hs with hmem | hmem
        · obtain ⟨s0, hs0, hfs0⟩ := List.mem_map.mp hmem
          by_cases hc : (s0.user_id == uid && s0.is_active) = true
          · rw [← hfs0] at hsact
            simp [hc] at hsact
          · have hseq : s = s0 := by rw [← hfs0]; simp [hc]
            subst hseq
            have huid : s.user_id = uid := hown s hs0 hhash
            have : (s.user_id == uid && s.is_active) = true := by
              simp [huid, hsact]
            exact hc this
        · have : s.token_hash = hash tok := by
            rcases List.mem_singleton.mp hmem with rfl
            rfl
          exact hneq (hhash ▸ this)
      rw [hnone]
      rfl
    simp only [authenticate, hv, hfind]

/-- A first-login session for user 7 whose (hashed) token is 100. -/
def sampleSession1 : Session :=
  { id := 1, user_id := 7, token_hash := 100, device_fingerprint := none,
    is_active := true, expires_at := 999999, invalidated_at := none,
    invalidation_reason := none }

/-- A database holding only the first session. -/
def sampleDbSession : Db :=
  { attendance := [], facilities := [], sessions := [sampleSession1],
    users := [], activities := [], nextId := 2 }

/-- The database after a second login (token 200) with the identity hash. -/
def sampleDbAfterLogin : Db :=
  loginSessions (fun n => n) sampleDbSession 7 200 none 999999 50

/-- C3 witness: after the concrete second login, exactly one session of user
7 is active, the first session is invalidated with reason `new_login`, and a
request bearing the first token is rejected with `SessionInvalidated`. -/
theorem login_enforces_single_active_session_witness :
    (sampleDbAfterLogin.sessions.filter
      (fun s => s.user_id == 7 && s.is_active)).length = 1 ∧
    ({ sampleSession1 with
       is_active := false,
       invalidated_at := some 50,
       invalidation_reason := some "new_login" } : Session) ∈
      sampleDbAfterLogin.sessions ∧
    authenticate (fun n => n) sampleDbAfterLogin none (some 100)
      (fun _ => .valid 7) 60 = .sessionInvalidated := by
  have h := login_enforces_single_active_session (fun n => n) sampleDbSession
    7 200 none 999999 50
  exact ⟨h.1,
    h.2.1 sampleSession1 (by decide) rfl rfl,
    h.2.2 100 (fun _ => .valid 7) 7 60 (by decide) (by decide) rfl⟩

/-! ## C4 -/

/-- C4: on the portable haversine path (the baseline great-circle
computation; `postgis := none`), a configured active facility reports the
point within the geofence exactly when the computed haversine distance is
less than or equal to the facility's radius (`COALESCE(geofence_radius,
100)`), and in particular a point exactly at the radius boundary is within
the geofence. -/
theorem geofence_within_iff_distance_le (m : JsMath) (facilities : List Facility)
    (fid : ℕ) (f : Facility) (lat lon : ℚ)
    (hfind : findActiveFacility facilities fid = some f)
    (hlat : numTruthy f.latitude = true) (hlon : numTruthy f.longitude = true) :
    ((validateGeofence m none facilities fid lat lon).isWithinGeofence = true ↔
      haversineDistance m (f.latitude.getD 0) (f.longitude.getD 0) lat lon ≤
        f.geofence_radius.getD 100) ∧
    (haversineDistance m (f.latitude.getD 0) (f.longitude.getD 0) lat lon =
        f.geofence_radius.getD 100 →
      (validateGeofence m none facilities fid lat lon).isWithinGeofence = true) := by
  have hmain : (validateGeofence m none facilities fid lat lon).isWithinGeofence = true ↔
      haversineDistance m (f.latitude.getD 0) (f.longitude.getD 0) lat lon ≤
        f.geofence_radius.getD 100 := by
    unfold validateGeofence geofenceFallback
    simp [hfind, hlat, hlon]
  exact ⟨hmain, fun h => hmain.mpr (le_of_eq h)⟩

/-- An active facility with configured (nonzero) coordinates. -/
def sampleGeoFacility : Facility :=
  { id := 9, name := "Clinic", latitude := some 1, longitude := some 30,
    geofence_radius := some 100, is_active := true }

/-- C4 witness: with the concrete facility and the degenerate math model
(distance 0), the within-geofence report and the distance comparison agree. -/
theorem geofence_within_iff_distance_le_witness :
    ((validateGeofence mathZero none [sampleGeoFacility] 9 1 30).isWithinGeofence = true ↔
      haversineDistance mathZero 1 30 1 30 ≤ 100) ∧
    (haversineDistance mathZero 1 30 1 30 = 100 →
      (validateGeofence mathZero none [sampleGeoFacility] 9 1 30).isWithinGeofence = true) := by
  have h := geofence_within_iff_distance_le mathZero [sampleGeoFacility] 9
    sampleGeoFacility 1 30 (by decide) (by decide) (by decide)
  exact h

/-! ## C5 -/

/-- A recorded prior attendance of user 7 at latitude exactly 0 (a non-null,
recorded coordinate), clocked in at t = 7,200,000 ms. -/
def sampleZeroLatRow : AttendanceRow :=
  { sampleActiveRow with
    clock_in_latitude := some 0,
    clock_in_longitude := some 30,
    clock_in_time := 7200000 }

/-- A database whose only attendance row is `sampleZeroLatRow`. -/
def sampleDbZeroLat : Db :=
  { attendance := [sampleZeroLatRow], facilities := [], sessions := [],
    users := [], activities := [], nextId := 2 }

/-- A current observation far from the equator with good accuracy. -/
def sampleSpeedLoc : LocationData :=
  { latitude := 5, longitude := 30, accuracy := some 40, is_mocked := some false }

/-- C5 counterexample: user 7 has a most recent recorded attendance location
(at latitude 0) and the new observation's elapsed time is negative, so the
claim demands an `impossible_speed` failure — yet the spoofing checks pass
with no flags, because the JS truthiness guard treats the zero latitude as a
missing coordinate and skips the speed check. -/
theorem impossible_speed_claim_counterexample :
    (getLastAttendanceWithLocation sampleDbZeroLat.attendance 7).isSome = true ∧
    timeDiffHours
      { latitude := 0, longitude := 30, timestamp := 7200000 }
      { latitude := 5, longitude := 30, timestamp := 0 } ≤ 0 ∧
    (runSpoofingChecks mathZero sampleSpeedLoc 7 sampleDbZeroLat 0).1.passed = true ∧
    (runSpoofingChecks mathZero sampleSpeedLoc 7 sampleDbZeroLat 0).1.flags = [] := by
  refine ⟨by decide, by norm_num [timeDiffHours], by decide, by decide⟩

/-- C5 (amended): when the prior and current locations all have nonzero
coordinates (the JS truthiness guard treats a zero coordinate as absent and
skips the check), `detectImpossibleSpeed` is suspicious exactly when the
elapsed time is zero or negative or the implied speed exceeds 150 km/h; and
for a user with no prior recorded location the speed check is skipped — it
contributes no `impossible_speed` flag, leaves `passed` determined by the
mock-location and accuracy checks alone, and performs no audit write. -/
theorem impossible_speed_amended (m : JsMath) (lastLoc curLoc : SpeedLocation)
    (h1 : lastLoc.latitude ≠ 0) (h2 : lastLoc.longitude ≠ 0)
    (h3 : curLoc.latitude ≠ 0) (h4 : curLoc.longitude ≠ 0) :
    ((detectImpossibleSpeed m (some lastLoc) (some curLoc)).suspicious = true ↔
      (timeDiffHours lastLoc curLoc ≤ 0 ∨
        impliedSpeedKmh m lastLoc curLoc > MAX_SPEED_KMH)) ∧
    (∀ (loc : LocationData) (uid : ℕ) (db : Db) (now : ℚ),
      getLastAttendanceWithLocation db.attendance uid = none →
      (runSpoofingChecks m loc uid db now).1.flags.contains "impossible_speed" = false ∧
      (runSpoofingChecks m loc uid db now).1.passed =
        (!(detectMockLocation loc.is_mocked).suspicious &&
          (validateGpsAccuracy loc.accuracy).valid) ∧
      (runSpoofingChecks m loc uid db now).2 = db) := by
  constructor
  · unfold detectImpossibleSpeed
    dsimp only
    have hcond : (lastLoc.latitude == 0 || lastLoc.longitude == 0 ||
        curLoc.latitude == 0 || curLoc.longitude == 0) = false := by
      simp [h1, h2, h3, h4]
    rw [hcond]
    simp only [Bool.false_eq_true, if_false]
    split_ifs with ht hs
    · simp [ht]
    · simp [ht, hs]
    · simp [ht, hs]
  · intro loc uid db now hnone
    unfold runSpoofingChecks
    dsimp only
    rw [hnone]
    by_cases hco : (loc.latitude != 0 && loc.longitude != 0) = true
    · rw [if_pos hco]
      refine ⟨?_, ?_, rfl⟩ <;>
        · dsimp only [detectMockLocation, validateGpsAccuracy]
          repeat' split
          all_goals simp_all
    · rw [if_neg hco]
      refine ⟨?_, ?_, rfl⟩ <;>
        · dsimp only [detectMockLocation, validateGpsAccuracy]
          repeat' split
          all_goals simp_all

/-- A database with no rows at all. -/
def emptyDb : Db :=
  { attendance := [], facilities := [], sessions := [], users := [],
    activities := [], nextId := 1 }

/-- C5 witness: concrete nonzero-coordinate locations with negative elapsed
time are flagged (matching the disjunction), and for a user with no prior
attendance the spoofing checks carry no `impossible_speed` flag. -/
theorem impossible_speed_amended_witness :
    ((detectImpossibleSpeed mathZero
        (some { latitude := 1, longitude := 30, timestamp := 3600000 })
        (some { latitude := 1, longitude := 30, timestamp := 0 })).suspicious = true ↔
      (timeDiffHours
          { latitude := 1, longitude := 30, timestamp := 3600000 }
          { latitude := 1, longitude := 30, timestamp := 0 } ≤ 0 ∨
        impliedSpeedKmh mathZero
          { latitude := 1, longitude := 30, timestamp := 3600000 }
          { latitude := 1, longitude := 30, timestamp := 0 } > MAX_SPEED_KMH)) ∧
    (runSpoofingChecks mathZero sampleSpeedLoc 9 emptyDb 0).1.flags.contains
      "impossible_speed" = false := by
  have h := impossible_speed_amended mathZero
    { latitude := 1, longitude := 30, timestamp := 3600000 }
    { latitude := 1, longitude := 30, timestamp := 0 }
    (by norm_num) (by norm_num) (by norm_num) (by norm_num)
  exact ⟨h.1, (h.2 sampleSpeedLoc 9 emptyDb 0 (by decide)).1⟩

/-! ## C6 -/

/-- Helper: `v || 1` on a version that is at least 1 is the version itself. -/
lemma jsOrNum_of_ge_one (q d : ℚ) (h : 1 ≤ q) : jsOrNum (some q) d = q := by
  have hq : q ≠ 0 := by intro h0; rw [h0] at h; norm_num at h
  simp [jsOrNum, numTruthy, hq]

/-- C6: resolving a genuine conflict with the `client_wins` strategy merges
the records preferring the client, always retains the server's `id` and
`created_at`, sets `sync_version = max(client, server) + 1` — strictly
greater than both sides, so repeated `client_wins` merges strictly increase
it — marks the merge `synced`, and stamps the metadata with
`conflict_resolved`, a resolution strategy and `resolved_at`. -/
theorem client_wins_merge (now : ℚ) (c s : SyncRecord) (cv sv : ℚ)
    (hconf : detectConflict c s = true)
    (hcv : c.sync_version = some cv) (hsv : s.sync_version = some sv)
    (hcv1 : 1 ≤ cv) (hsv1 : 1 ≤ sv) :
    (resolveConflict now c (some s) "client_wins").action = "update" ∧
    (resolveConflict now c (some s) "client_wins").resolved =
      some (mergeRecords now c s "client") ∧
    (mergeRecords now c s "client").id = s.id ∧
    (mergeRecords now c s "client").created_at = s.created_at ∧
    (mergeRecords now c s "client").sync_version = some (max cv sv + 1) ∧
    cv < max cv sv + 1 ∧ sv < max cv sv + 1 ∧
    (mergeRecords now c s "client").synced = some true ∧
    (mergeRecords now c s "client").metadata.conflict_resolved = some true ∧
    (mergeRecords now c s "client").metadata.resolution_strategy = some "client" ∧
    (mergeRecords now c s "client").metadata.resolved_at = some now := by
  refine ⟨by simp [resolveConflict, hconf], by simp [resolveConflict, hconf],
    by simp [mergeRecords], by simp [mergeRecords], ?_, ?_, ?_,
    by simp [mergeRecords], by simp [mergeRecords], by simp [mergeRecords],
    by simp [mergeRecords]⟩
  · simp [mergeRecords, hcv, hsv, jsOrNum_of_ge_one cv 1 hcv1,
      jsOrNum_of_ge_one sv 1 hsv1]
  · calc cv ≤ max cv sv := le_max_left cv sv
      _ < max cv sv + 1 := by linarith
  · calc sv ≤ max cv sv := le_max_right cv sv
      _ < max cv sv + 1 := by linarith

/-- A client-side record with version 2. -/
def sampleClientRecord : SyncRecord :=
  { id := none, created_at := none, server_timestamp := none,
    clock_in_time := some 1000, clock_out_time := some 9000,
    status := some "completed", sync_version := some 2, synced := some false,
    metadata := Metadata.empty }

/-- The matching server record with version 1. -/
def sampleServerRecord : SyncRecord :=
  { id := some 42, created_at := some 500, server_timestamp := some 600,
    clock_in_time := some 1000, clock_out_time := none,
    status := some "active", sync_version := some 1, synced := some true,
    metadata := Metadata.empty }

/-- C6 witness: the concrete conflicting pair merges under `client_wins`
into a record with the server's id 42 and `created_at` 500 and
`sync_version` 3 (= max 2 1 + 1). -/
theorem client_wins_merge_witness :
    detectConflict sampleClientRecord sampleServerRecord = true ∧
    (resolveConflict 700 sampleClientRecord (some sampleServerRecord)
      "client_wins").action = "update" ∧
    (mergeRecords 700 sampleClientRecord sampleServerRecord "client").id = some 42 ∧
    (mergeRecords 700 sampleClientRecord sampleServerRecord "client").created_at = some 500 ∧
    (mergeRecords 700 sampleClientRecord sampleServerRecord "client").sync_version = some 3 ∧
    (mergeRecords 700 sampleClientRecord sampleServerRecord "client").synced = some true := by
  have h := client_wins_merge 700 sampleClientRecord sampleServerRecord 2 1
    (by decide) rfl rfl (by norm_num) (by norm_num)
  refine ⟨by decide, h.1, h.2.2.1, h.2.2.2.1, ?_, h.2.2.2.2.2.2.2.1⟩
  have h5 := h.2.2.2.2.1
  rw [h5]
  norm_num

/-! ## C7 -/

/-- A sync record with a device id whose client timestamp is the epoch. -/
def sampleOldRecord : BulkRecord :=
  { user_id := none, facility_id := some 3, clock_in_time := some 1000,
    clock_out_time := some 9000, clock_in_latitude := none,
    clock_in_longitude := none, clock_out_latitude := none,
    clock_out_longitude := none, status := some "completed", notes := none,
    client_timestamp := some 1000, device_id := some "d1",
    sync_version := some 1, conflict_resolution_strategy := none,
    metadata := Metadata.empty }

/-- A sync record whose client timestamp lies in the future. -/
def sampleFutureRecord : BulkRecord :=
  { sampleOldRecord with client_timestamp := some 5000000000 }

/-- C7 evaluation: a record with a device id whose `client_timestamp` is 31
days old is marked invalid with the "more than 30 days old" message pushed
onto `errors` — so `syncOfflineRecords` refuses to process it (here, being
the only record, the whole call reports failure and the database is
untouched) — while a future-dated record is likewise a hard validation
error, as the claim states. -/
theorem thirty_day_old_record_rejected :
    (validateSyncMetadata 2678401000 sampleOldRecord).isValid = false ∧
    (validateSyncMetadata 2678401000 sampleOldRecord).errors =
      ["client_timestamp is more than 30 days old"] ∧
    (syncOfflineRecords 2678401000 [sampleOldRecord] sampleUser emptyDb).1.success = false ∧
    (syncOfflineRecords 2678401000 [sampleOldRecord] sampleUser emptyDb).2 = emptyDb ∧
    (validateSyncMetadata 2678401000 sampleFutureRecord).isValid = false ∧
    (validateSyncMetadata 2678401000 sampleFutureRecord).errors =
      ["client_timestamp is in the future"] := by
  have h30 : ((2678401000 : ℚ) - 1000) / (1000 * 60 * 60 * 24) > 30 := by norm_num
  have hfut : ¬ ((1000 : ℚ) > 2678401000) := by norm_num
  have h30f : ¬ (((2678401000 : ℚ) - 5000000000) / (1000 * 60 * 60 * 24) > 30) := by
    norm_num
  have hfutf : (5000000000 : ℚ) > 2678401000 := by norm_num
  have hd1 : ¬ ("d1" : String) = "" := by decide
  have hval : validateSyncMetadata 2678401000 sampleOldRecord =
      { isValid := false, errors := ["client_timestamp is more than 30 days old"] } := by
    unfold validateSyncMetadata sampleOldRecord
    norm_num [strTruthy, numTruthy, h30, hfut, hd1]
  have hvalf : validateSyncMetadata 2678401000 sampleFutureRecord =
      { isValid := false, errors := ["client_timestamp is in the future"] } := by
    unfold validateSyncMetadata sampleFutureRecord sampleOldRecord
    norm_num [strTruthy, numTruthy, h30f, hfutf, hd1]
  have hval' : validateSyncMetadata 2678401000
      { sampleOldRecord with user_id := some sampleUser.id } =
      { isValid := false, errors := ["client_timestamp is more than 30 days old"] } :=
    hval
  have hsync : syncOfflineRecords 2678401000 [sampleOldRecord] sampleUser emptyDb =
      ({ success := false, total_submitted := 1, valid_records := 0,
         inserted := 0, updated := 0, validation_errors := 1, outcomes := [] },
       emptyDb) := by
    simp only [syncOfflineRecords]
    simp [hval']
  exact ⟨by rw [hval], by rw [hval], by rw [hsync], by rw [hsync],
    by rw [hvalf], by rw [hvalf]⟩

/-! ## C8 -/

/-- Helper: `bulkSync` yields exactly one outcome per record. -/
lemma bulkSync_length (now : ℚ) (records : List BulkRecord) (db : Db) :
    (bulkSync now records db).1.length = records.length := by
  induction records generalizing db with
  | nil => rfl
  | cons r rs ih => simp [bulkSync, ih]

/-- C8: a batch containing exactly one malformed record among otherwise
valid ones reports that single record as a validation error, hands all of
the other N−1 records to `bulkSync` — which produces an outcome for each of
them — and succeeds rather than aborting the whole batch. -/
theorem batch_one_bad_record_isolated (now : ℚ) (l1 l2 : List BulkRecord)
    (bad : BulkRecord) (user : ServiceUser) (db : Db)
    (hbad : (validateSyncMetadata now
      { bad with user_id := some user.id }).isValid = false)
    (hgood : ∀ r ∈ l1 ++ l2, (validateSyncMetadata now
      { r with user_id := some user.id }).isValid = true)
    (hne : l1 ++ l2 ≠ []) :
    (syncOfflineRecords now (l1 ++ [bad] ++ l2) user db).1.success = true ∧
    (syncOfflineRecords now (l1 ++ [bad] ++ l2) user db).1.validation_errors = 1 ∧
    (syncOfflineRecords now (l1 ++ [bad] ++ l2) user db).1.valid_records =
      (l1 ++ l2).length ∧
    (syncOfflineRecords now (l1 ++ [bad] ++ l2) user db).1.outcomes.length =
      (l1 ++ l2).length := by
  simp only [syncOfflineRecords]
  have hmap : (l1 ++ [bad] ++ l2).map (fun r => { r with user_id := some user.id }) =
      l1.map (fun r => { r with user_id := some user.id }) ++
      [{ bad with user_id := some user.id }] ++
      l2.map (fun r => { r with user_id := some user.id }) := by
    simp
  have hfl1 : (l1.map (fun r => { r with user_id := some user.id })).filter
      (fun r => (validateSyncMetadata now r).isValid) =
      l1.map (fun r => { r with user_id := some user.id }) := by
    rw [List.filter_eq_self]
    intro a ha
    obtain ⟨r, hr, rfl⟩ := List.mem_map.mp ha
    exact hgood r (List.mem_append_left _ hr)
  have hfl2 : (l2.map (fun r => { r with user_id := some user.id })).filter
      (fun r => (validateSyncMetadata now r).isValid) =
      l2.map (fun r => { r with user_id := some user.id }) := by
    rw [List.filter_eq_self]
    intro a ha
    obtain ⟨r, hr, rfl⟩ := List.mem_map.mp ha
    exact hgood r (List.mem_append_right _ hr)
  have hvalid : ((l1 ++ [bad] ++ l2).map
      (fun r => { r with user_id := some user.id })).filter
      (fun r => (validateSyncMetadata now r).isValid) =
      l1.map (fun r => { r with user_id := some user.id }) ++
      l2.map (fun r => { r with user_id := some user.id }) := by
    rw [hmap, List.filter_append, List.filter_append, hfl1, hfl2]
    simp [hbad]
  have herr : ((l1 ++ [bad] ++ l2).map
      (fun r => { r with user_id := some user.id })).filter
      (fun r => !(validateSyncMetadata now r).isValid) =
      [{ bad with user_id := some user.id }] := by
    rw [hmap, List.filter_append, List.filter_append]
    have e1 : (l1.map (fun r => { r with user_id := some user.id })).filter
        (fun r => !(validateSyncMetadata now r).isValid) = [] := by
      rw [List.filter_eq_nil_iff]
      intro a ha
      obtain ⟨r, hr, rfl⟩ := List.mem_map.mp ha
      simp [hgood r (List.mem_append_left _ hr)]
    have e2 : (l2.map (fun r => { r with user_id := some user.id })).filter
        (fun r => !(validateSyncMetadata now r).isValid) = [] := by
      rw [List.filter_eq_nil_iff]
      intro a ha
      obtain ⟨r, hr, rfl⟩ := List.mem_map.mp ha
      simp [hgood r (List.mem_append_right _ hr)]
    rw [e1, e2]
    simp [hbad]
  have hnonempty : (l1.map (fun r : BulkRecord => { r with user_id := some user.id }) ++
      l2.map (fun r : BulkRecord => { r with user_id := some user.id })).isEmpty = false := by
    rcases List.exists_mem_of_ne_nil _ hne with ⟨r, hr⟩
    rcases List.mem_append.mp hr with h | h
    · cases l1 with
      | nil => cases h
      | cons x xs => simp
    · cases l2 with
      | nil => cases h
      | cons x xs => cases l1 <;> simp
  rw [hvalid, herr, hnonempty]
  simp only [Bool.false_eq_true, if_false]
  rcases hbs : bulkSync now
    (l1.map (fun r => { r with user_id := some user.id }) ++
     l2.map (fun r => { r with user_id := some user.id })) db with ⟨outs, db1⟩
  have hlen := bulkSync_length now
    (l1.map (fun r => { r with user_id := some user.id }) ++
     l2.map (fun r => { r with user_id := some user.id })) db
  rw [hbs] at hlen
  simp only [hbs]
  refine ⟨trivial, by simp, by simp, ?_⟩
  simpa using hlen

/-- A well-formed offline sync record. -/
def sampleGoodRecord : BulkRecord :=
  { user_id := none, facility_id := some 3, clock_in_time := some 500,
    clock_out_time := some 900, clock_in_latitude := none,
    clock_in_longitude := none, clock_out_latitude := none,
    clock_out_longitude := none, status := some "completed", notes := none,
    client_timestamp := some 1000, device_id := some "g1",
    sync_version := some 1, conflict_resolution_strategy := none,
    metadata := Metadata.empty }

/-- The same record with its `device_id` missing (malformed). -/
def sampleNoDeviceRecord : BulkRecord :=
  { sampleGoodRecord with device_id := none }

/-- C8 witness: a concrete batch of two records with exactly one missing
`device_id` syncs with one validation error, one valid record, and one
outcome — no full-batch abort. -/
theorem batch_one_bad_record_isolated_witness :
    (validateSyncMetadata 2000
      { sampleNoDeviceRecord with user_id := some sampleUser.id }).isValid = false ∧
    (syncOfflineRecords 2000 ([sampleGoodRecord] ++ [sampleNoDeviceRecord] ++ [])
      sampleUser emptyDb).1.success = true ∧
    (syncOfflineRecords 2000 ([sampleGoodRecord] ++ [sampleNoDeviceRecord] ++ [])
      sampleUser emptyDb).1.validation_errors = 1 ∧
    (syncOfflineRecords 2000 ([sampleGoodRecord] ++ [sampleNoDeviceRecord] ++ [])
      sampleUser emptyDb).1.valid_records = 1 ∧
    (syncOfflineRecords 2000 ([sampleGoodRecord] ++ [sampleNoDeviceRecord] ++ [])
      sampleUser emptyDb).1.outcomes.length = 1 := by
  have hbad : (validateSyncMetadata 2000
      { sampleNoDeviceRecord with user_id := some sampleUser.id }).isValid = false := by
    have h30 : ¬ (((2000 : ℚ) - 1000) / (1000 * 60 * 60 * 24) > 30) := by norm_num
    have hfut : ¬ ((1000 : ℚ) > 2000) := by norm_num
    unfold validateSyncMetadata sampleNoDeviceRecord sampleGoodRecord
    norm_num [strTruthy, numTruthy, h30, hfut]
  have hgood : ∀ r ∈ [sampleGoodRecord] ++ [],
      (validateSyncMetadata 2000 { r with user_id := some sampleUser.id }).isValid = true := by
    intro r hr
    have : r = sampleGoodRecord := by simpa using hr
    subst this
    have h30 : ¬ (((2000 : ℚ) - 1000) / (1000 * 60 * 60 * 24) > 30) := by norm_num
    have hfut : ¬ ((1000 : ℚ) > 2000) := by norm_num
    have hg1 : ¬ ("g1" : String) = "" := by decide
    unfold validateSyncMetadata sampleGoodRecord
    norm_num [strTruthy, numTruthy, h30, hfut, hg1]
  have h := batch_one_bad_record_isolated 2000 [sampleGoodRecord] []
    sampleNoDeviceRecord sampleUser emptyDb hbad hgood (by decide)
  exact ⟨hbad, h.1, h.2.1, h.2.2.1, h.2.2.2⟩

/-! ## C9 -/

/-- Helper: `v || d` is `v` itself when `v` is present and nonzero. -/
lemma jsOrNum_of_ne_zero (q d : ℚ) (h : q ≠ 0) : jsOrNum (some q) d = q := by
  simp [jsOrNum, numTruthy, h]

/-- C9: in the persisted `bulkSync` path, a record matching an existing row
on `(device_id, client_timestamp)` modifies the row only when the incoming
`sync_version` is strictly greater than the stored one; when it is applied,
the stored `sync_version` becomes the client's value (not `max + 1`); and
the record's `conflict_resolution_strategy` is never consulted in the
matched case — any two strategy values produce identical results. -/
theorem bulkSync_version_gate (db : Db) (record : BulkRecord) (now : ℚ)
    (ex : AttendanceRow) (rv : ℚ)
    (hfind : db.attendance.find? (fun a =>
      sqlEqStr a.device_id record.device_id &&
      sqlEqNum a.client_timestamp record.client_timestamp) = some ex)
    (hrv : record.sync_version = some rv) (hrv0 : rv ≠ 0) :
    (rv ≤ ex.sync_version →
      processSyncRecord db record now = (.nochange, db)) ∧
    (rv > ex.sync_version →
      ∃ row, processSyncRecord db record now =
        (.updated row,
         { db with attendance := db.attendance.map fun a =>
             if a.id == ex.id then row else a }) ∧
        row.sync_version = rv) ∧
    (∀ s1 s2 : Option String,
      processSyncRecord db { record with conflict_resolution_strategy := s1 } now =
      processSyncRecord db { record with conflict_resolution_strategy := s2 } now) := by
  have hor : jsOrNum record.sync_version 1 = rv := by
    rw [hrv]; exact jsOrNum_of_ne_zero rv 1 hrv0
  refine ⟨?_, ?_, ?_⟩
  · intro hle
    have hgt : ¬ (jsOrNum record.sync_version 1 > ex.sync_version) := by
      rw [hor]; exact not_lt.mpr hle
    unfold processSyncRecord
    rw [hfind]
    simp only [hgt, if_false]
  · intro hgt
    have hgt' : jsOrNum record.sync_version 1 > ex.sync_version := by
      rw [hor]; exact hgt
    unfold processSyncRecord
    rw [hfind]
    simp only [hgt', if_true]
    refine ⟨_, rfl, ?_⟩
    show jsOrNum record.sync_version (ex.sync_version + 1) = rv
    rw [hrv]; exact jsOrNum_of_ne_zero rv _ hrv0
  · intro s1 s2
    unfold processSyncRecord
    dsimp only
    rw [hfind]

/-- A sync record matching `sampleActiveRow` on `(device_id,
client_timestamp)` with the same `sync_version`. -/
def sampleSyncSame : BulkRecord :=
  { sampleGoodRecord with
    device_id := some "dev-1",
    client_timestamp := some 1000,
    sync_version := some 1 }

/-- The same record with a strictly higher `sync_version`. -/
def sampleSyncHigher : BulkRecord :=
  { sampleSyncSame with sync_version := some 2 }

/-- C9 witness: against the stored row at version 1, an equal-version record
leaves the database untouched, and a version-2 record updates the row to the
client's `sync_version` 2. -/
theorem bulkSync_version_gate_witness :
    processSyncRecord sampleDbActive sampleSyncSame 5000 =
      (.nochange, sampleDbActive) ∧
    ∃ row, processSyncRecord sampleDbActive sampleSyncHigher 5000 =
      (.updated row,
       { sampleDbActive with attendance := sampleDbActive.attendance.map fun a =>
           if a.id == sampleActiveRow.id then row else a }) ∧
      row.sync_version = 2 := by
  have h1 := bulkSync_version_gate sampleDbActive sampleSyncSame 5000
    sampleActiveRow 1 (by decide) rfl (by norm_num)
  have h2 := bulkSync_version_gate sampleDbActive sampleSyncHigher 5000
    sampleActiveRow 2 (by decide) rfl (by norm_num)
  exact ⟨h1.1 (by norm_num [sampleActiveRow]), h2.2.1 (by norm_num [sampleActiveRow])⟩

/-! ## C10 -/

/-- C10: when the session lookup throws (for example the `user_sessions`
table does not exist), the middleware's `catch` swallows the error and
authentication proceeds without session validation — a structurally valid,
unexpired JWT authenticates the request even though no active session row
exists for its token. -/
theorem authenticate_failopen_on_lookup_error (hash : ℕ → ℕ) (db : Db)
    (e : String) (token : ℕ) (verify : ℕ → JwtVerify) (uid : ℕ) (u : UserRow)
    (now : ℚ)
    (hv : verify token = .valid uid)
    (hu : db.users.find? (fun x => x.id == uid && x.is_active) = some u) :
    authenticate hash db (some e) (some token) verify now =
      .authenticated u.id none := by
  simp only [authenticate, hv, hu]

/-- A user row for user 7. -/
def sampleUserRow : UserRow := { id := 7, is_active := true, facility_id := none }

/-- C10 witness: with an empty `user_sessions` table (so no active session
row exists for the token) and an erroring session lookup, a valid JWT for
user 7 authenticates. -/
theorem authenticate_failopen_on_lookup_error_witness :
    findActiveSessionByToken (fun n => n)
      { emptyDb with users := [sampleUserRow] } 100 0 = none ∧
    authenticate (fun n => n) { emptyDb with users := [sampleUserRow] }
      (some "relation user_sessions does not exist") (some 100)
      (fun _ => .valid 7) 0 = .authenticated 7 none := by
  refine ⟨by decide, ?_⟩
  exact authenticate_failopen_on_lookup_error (fun n => n)
    { emptyDb with users := [sampleUserRow] }
    "relation user_sessions does not exist" 100 (fun _ => .valid 7) 7
    sampleUserRow 0 rfl (by decide)

end Onsite
